import Mathlib

/-!
Verification development for a small httpie-like HTTP command-line client
(source: src/main.rs). The program parses `get <url>` / `post <url> [k=v ...]`
command lines, issues one HTTP request, and renders the response. Strings are
embedded as `List Char`; the relevant Rust functions are translated into
executable Lean definitions below, and the stated properties are settled as
theorems at the end of the file.
-/

set_option autoImplicit false

namespace Httpie

/-- Strings of the embedding: Rust `String` / `&str` as a list of characters. -/
abbrev Str := List Char

/-- Rust's `str::split(sep)` iterator, collected into a list: splits on every
occurrence of `sep`, preserving empty segments; the empty string yields one
empty segment, and the result is never empty. -/
def splitChar (sep : Char) : Str → List Str
  | [] => [[]]
  | x :: xs =>
    if x = sep then [] :: splitChar sep xs
    else
      match splitChar sep xs with
      | [] => [[x]]
      | seg :: rest => (x :: seg) :: rest

/-- The substring of `s` strictly before the first occurrence of `sep`
(`s` itself when `sep` does not occur). Spec-side notion used to state the
kv-pair claims. -/
def beforeSep (sep : Char) : Str → Str
  | [] => []
  | x :: xs => if x = sep then [] else x :: beforeSep sep xs

/-- The entire substring of `s` strictly after the first occurrence of `sep`
(empty when `sep` does not occur). Spec-side notion used to state the
kv-pair claims. -/
def afterSep (sep : Char) : Str → Str
  | [] => []
  | x :: xs => if x = sep then xs else afterSep sep xs

/-- The `KvPair` struct of src/main.rs: one `key=value` command-line token. -/
structure KvPair where
  k : Str
  v : Str
deriving DecidableEq, Repr

/-- The error message `format!("Failed to parse {}", s)` built by
`KvPair::from_str`'s error closure. -/
def failMsg (s : Str) : Str := ("Failed to parse ").data ++ s

/-- `impl FromStr for KvPair` (src/main.rs lines 64-75): run `s.split('=')`
and take the first two fragments as key and value; if the iterator yields
fewer than two fragments, fail with `Failed to parse {s}`. The first
`next()` always succeeds (`split` never yields an empty iterator), so the
only failure is a missing second fragment. -/
def KvPair.from_str (s : Str) : Except Str KvPair :=
  match splitChar '=' s with
  | k :: v :: _ => .ok ⟨k, v⟩
  | _ => .error (failMsg s)

/-- `parse_kv_pair` (src/main.rs lines 77-79): delegates to `KvPair::from_str`. -/
def parse_kv_pair (s : Str) : Except Str KvPair := KvPair.from_str s

theorem splitChar_eq (sep : Char) (s : Str) :
    splitChar sep s =
      if sep ∈ s then beforeSep sep s :: splitChar sep (afterSep sep s)
      else [s] := by
  induction s with
  | nil => simp [splitChar]
  | cons x xs ih =>
    by_cases hx : x = sep
    · subst hx
      simp [splitChar, beforeSep, afterSep]
    · have hmem : sep ∈ x :: xs ↔ sep ∈ xs := by
        constructor
        · intro h
          rcases List.mem_cons.mp h with h | h
          · exact absurd h.symm hx
          · exact h
        · intro h
          exact List.mem_cons_of_mem _ h
      by_cases hs : sep ∈ xs
      · rw [splitChar, if_neg hx, ih, if_pos hs]
        simp [hmem, hs, beforeSep, afterSep, hx]
      · rw [splitChar, if_neg hx, ih, if_neg hs]
        simp [hmem, hs, beforeSep, afterSep, hx]

theorem beforeSep_of_not_mem (sep : Char) (s : Str) (h : sep ∉ s) :
    beforeSep sep s = s := by
  induction s with
  | nil => rfl
  | cons x xs ih =>
    have hx : x ≠ sep := fun hxe => h (hxe ▸ List.mem_cons_self x xs)
    have hxs : sep ∉ xs := fun hm => h (List.mem_cons_of_mem _ hm)
    simp [beforeSep, hx, ih hxs]

theorem from_str_of_mem (s : Str) (h : '=' ∈ s) :
    KvPair.from_str s =
      .ok ⟨beforeSep '=' s, beforeSep '=' (afterSep '=' s)⟩ := by
  unfold KvPair.from_str
  rw [splitChar_eq, if_pos h, splitChar_eq]
  by_cases h2 : '=' ∈ afterSep '=' s
  · rw [if_pos h2]
  · rw [if_neg h2, beforeSep_of_not_mem _ _ h2]

theorem from_str_of_not_mem (s : Str) (h : '=' ∉ s) :
    KvPair.from_str s = .error (failMsg s) := by
  unfold KvPair.from_str
  rw [splitChar_eq, if_neg h]

/-! ## URL validation -/

/-- Characters admissible in a URL scheme. -/
def isSchemeChar (c : Char) : Bool :=
  c.isAlpha || c.isDigit || c = '+' || c = '-' || c = '.'

/-- Modelled from the spec: `reqwest::Url` (the `url` crate) is a dependency
whose code is not part of this repository; the spec fixes its contract as
"attempt to parse it as an absolute URL (scheme + host required)". The model
accepts exactly the strings of the form `scheme://host...` where the scheme
is a non-empty run of scheme characters starting with a letter and the host
(the segment after `://` up to the first `/`) is non-empty. -/
def urlIsValid (s : Str) : Bool :=
  let scheme := s.takeWhile (fun c => c ≠ ':')
  match s.dropWhile (fun c => c ≠ ':') with
  | ':' :: '/' :: '/' :: hostRest =>
    (match scheme with
     | [] => false
     | c :: _ => c.isAlpha)
    && scheme.all isSchemeChar
    && !(hostRest.takeWhile (fun c => c ≠ '/')).isEmpty
  | _ => false

/-- `parse_url` (src/main.rs lines 81-86): validate `s` by parsing it as a
`Url`; on success return the original string unchanged, on failure propagate
the parse error. -/
def parse_url (s : Str) : Except Str Str :=
  if urlIsValid s then .ok s else .error (("invalid url: ").data ++ s)

/-! ## MIME values and content-type detection -/

/-- A parsed MIME value: type, subtype and parameter list. Equality (as in
the `mime` crate) is structural, so parameters participate in comparisons. -/
structure Mime where
  type : Str
  subtype : Str
  params : List (Str × Str)
deriving DecidableEq, Repr

/-- ASCII lowercasing of a string. -/
def lowerStr (s : Str) : Str := s.map Char.toLower

/-- Characters admissible in a MIME token (type, subtype, parameter name). -/
def isTokenChar (c : Char) : Bool :=
  c.isAlphanum || c = '-' || c = '+' || c = '.' || c = '_' || c = '*'

/-- Strip leading and trailing spaces. -/
def trimSpaces (s : Str) : Str :=
  ((s.dropWhile (fun c => c = ' ')).reverse.dropWhile (fun c => c = ' ')).reverse

/-- Parse one `name=value` MIME parameter. -/
def parseParam (s : Str) : Option (Str × Str) :=
  match splitChar '=' (trimSpaces s) with
  | [n, v] =>
    if !n.isEmpty && n.all isTokenChar && !v.isEmpty then
      some (lowerStr n, v)
    else none
  | _ => none

/-- Parse the `;`-separated MIME parameter segments. -/
def parseParams : List Str → Option (List (Str × Str))
  | [] => some []
  | p :: ps =>
    match parseParam p, parseParams ps with
    | some kv, some rest => some (kv :: rest)
    | _, _ => none

/-- Modelled from the spec: the `mime` crate's parser is a dependency whose
code is not part of this repository; the spec fixes its contract as parsing
the header value "into a structured MIME value". The model accepts
`type/subtype` essences of token characters, optionally followed by
`;`-separated `name=value` parameters, lowercasing type, subtype and
parameter names. -/
def mimeParse (s : Str) : Option Mime :=
  match splitChar ';' s with
  | [] => none
  | essence :: paramsRaw =>
    match splitChar '/' (trimSpaces essence) with
    | [ty, sub] =>
      if !ty.isEmpty && ty.all isTokenChar && !sub.isEmpty && sub.all isTokenChar then
        match parseParams paramsRaw with
        | some ps => some ⟨lowerStr ty, lowerStr sub, ps⟩
        | none => none
      else none
    | _ => none

/-- `mime::APPLICATION_JSON`: the parameterless `application/json` value. -/
def APPLICATION_JSON : Mime := ⟨("application").data, ("json").data, []⟩

/-- `mime::TEXT_HTML`: the parameterless `text/html` value. -/
def TEXT_HTML : Mime := ⟨("text").data, ("html").data, []⟩

/-- The panic raised by `get_content_type`'s `.parse().unwrap()` when a
present `Content-Type` value fails to parse as a `Mime`. -/
def ctPanic : Str := ("panicked at Result::unwrap on Content-Type parse error").data

/-- `get_content_type` (src/main.rs lines 137-142): read the `Content-Type`
header if present and parse it; the header's absence yields `none`, while a
present value that fails to parse hits `.unwrap()` and panics (modelled as
the `error` branch). -/
def get_content_type (ctHeader : Option Str) : Except Str (Option Mime) :=
  match ctHeader with
  | none => .ok none
  | some v =>
    match mimeParse v with
    | some m => .ok (some m)
    | none => .error ctPanic

/-! ## Body rendering dispatch -/

/-- What `print_body` does with the body: hand it to `print_syntect` with a
grammar extension, or print the raw text unmodified. -/
inductive RenderAction where
  | syntect (body : Str) (ext : Str)
  | plain (body : Str)
deriving DecidableEq, Repr

/-- `print_body` (src/main.rs lines 120-126): syntax-highlight the body as
JSON when the detected MIME value equals `mime::APPLICATION_JSON`, as HTML
when it equals `mime::TEXT_HTML`, and otherwise print the raw body text. -/
def print_body (m : Option Mime) (body : Str) : RenderAction :=
  match m with
  | some v =>
    if v = APPLICATION_JSON then .syntect body (("json").data)
    else if v = TEXT_HTML then .syntect body (("html").data)
    else .plain body
  | none => .plain body

/-! ## Responses and the renderer -/

/-- The observable pieces of a `reqwest::Response` the program reads:
protocol version, status, header list (in delivery order), and body text. -/
structure Response where
  version : Str
  status : Str
  headers : List (Str × Str)
  body : Str
deriving DecidableEq, Repr

/-- One printed item of program output. -/
inductive OutItem where
  | statusLine (s : Str)
  | headerLine (name value : Str)
  | blank
  | render (r : RenderAction)
  | highlighted (line : Str)
  | debugText (t : Str)
deriving DecidableEq, Repr

/-- `print_status` (src/main.rs lines 106-109): print `{version} {status}`
followed by a blank line. -/
def print_status (resp : Response) : List OutItem :=
  [.statusLine (resp.version ++ (" ").data ++ resp.status), .blank]

/-- `print_headers` (src/main.rs lines 112-117): print one `name: value`
line per header, in delivery order, then a blank line. -/
def print_headers (resp : Response) : List OutItem :=
  (resp.headers.map (fun p => OutItem.headerLine p.1 p.2)) ++ [.blank]

/-- `resp.headers().get(header::CONTENT_TYPE)`: the first header whose name
matches `content-type` case-insensitively, as `reqwest` stores names
lowercased. -/
def ctHeaderOf (resp : Response) : Option Str :=
  (resp.headers.find? (fun p => lowerStr p.1 = ("content-type").data)).map Prod.snd

/-- `print_resp` (src/main.rs lines 128-135): print status then headers,
detect the content type, then print the body through `print_body`. Returns
the printed items together with the panic message when `get_content_type`
panics (status and headers are already printed at that point). -/
def print_resp (resp : Response) : List OutItem × Option Str :=
  let pre := print_status resp ++ print_headers resp
  match get_content_type (ctHeaderOf resp) with
  | .error e => (pre, some e)
  | .ok m => (pre ++ [.render (print_body m resp.body)], none)

/-- `get` (src/main.rs lines 88-92): issue the GET request and render the
response through the full renderer `print_resp`. -/
def get (resp : Response) : List OutItem × Option Str := print_resp resp

/-! ## Request body construction (POST) -/

/-- `HashMap::insert` observed through the association list of the map:
overwrite the entry when the key is present, append it otherwise. -/
def hashInsert (m : List (Str × Str)) (k v : Str) : List (Str × Str) :=
  if m.any (fun p => p.1 = k) then
    m.map (fun p => if p.1 = k then (k, v) else p)
  else m ++ [(k, v)]

/-- Lookup in the association list of the map. -/
def mapGet (m : List (Str × Str)) (key : Str) : Option Str :=
  match m with
  | [] => none
  | p :: ps => if p.1 = key then some p.2 else mapGet ps key

/-- The body-map construction loop of `post` (src/main.rs lines 95-98):
insert each parsed pair into an initially empty map. -/
def buildBody (pairs : List KvPair) : List (Str × Str) :=
  pairs.foldl (fun m p => hashInsert m p.k p.v) []

/-- Spec-side notion: the value of the last pair in `pairs` carrying `key`,
if any. -/
def lastVal (pairs : List KvPair) (key : Str) : Option Str :=
  match pairs with
  | [] => none
  | p :: ps =>
    match lastVal ps key with
    | some v => some v
    | none => if p.k = key then some p.v else none

/-- What `post` prints plus the body map it sends (src/main.rs lines
94-103): build the body map, issue the POST, then print only the response
text, debug-quoted (`println!("{:?}", ...)`) — `print_resp` is not called. -/
structure PostResult where
  bodyMap : List (Str × Str)
  printed : List OutItem
deriving DecidableEq, Repr

/-- `post` (src/main.rs lines 94-103). -/
def post (pairs : List KvPair) (resp : Response) : PostResult :=
  { bodyMap := buildBody pairs, printed := [.debugText resp.body] }

/-! ## Syntax highlighting -/

/-- The fixed theme name used by `print_syntect`. -/
def themeName : Str := ("base16-ocean.dark").data

/-- The panic raised by `ps.find_syntax_by_extension(ext).unwrap()` when the
grammar is missing. -/
def grammarPanic : Str := ("panicked at Option::unwrap on missing grammar").data

/-- The panic raised by the `ts.themes["base16-ocean.dark"]` index when the
theme is missing. -/
def themePanic : Str := ("panicked at missing theme index").data

/-- Modelled from the spec: `SyntaxSet::load_defaults_newlines()` is part of
the `syntect` dependency, not of this repository; the spec fixes only that
grammars are located in the bundled defaults by extension name (`json`,
`html`), so the model records those extensions as present. -/
def defaultSyntaxExts : List Str := [("json").data, ("html").data]

/-- Modelled from the spec: `ThemeSet::load_defaults()` bundles the fixed
theme `base16-ocean.dark` used by `print_syntect`. -/
def defaultThemes : List Str := [themeName]

/-- `print_syntect` (src/main.rs lines 163-173), parameterized by the loaded
syntax-set extensions and theme names: look the grammar up by extension
(`unwrap` panics when absent), index the theme set at `base16-ocean.dark`
(panics when absent), then emit one highlighted item per line. -/
def print_syntect (exts themes : List Str) (s ext : Str) :
    Except Str (List OutItem) :=
  match (if exts.contains ext then some ext else none) with
  | none => .error grammarPanic
  | some _ =>
    if themes.contains themeName then
      .ok ((splitChar (Char.ofNat 10) s).map OutItem.highlighted)
    else .error themePanic

/-! ## CLI argument model and main -/

/-- The `SubCommand` enum of src/main.rs: `get` with a validated URL, or
`post` with a validated URL and parsed body pairs. -/
inductive SubCmd where
  | get (url : Str)
  | post (url : Str) (body : List KvPair)
deriving DecidableEq, Repr

/-- The usage error produced when the command line does not match a
subcommand shape. -/
def usageErr : Str := ("usage error").data

/-- Modelled from the spec: `clap` derives the argument parsing from the
`Opts`/`SubCommand` structs and runs `parse_url` / `parse_kv_pair` as
`try_from_str` validators during argument parsing. The model parses
`get <url>` and `post <url> [k=v ...]`, propagating the first validator
error. -/
def parseOpts (argv : List Str) : Except Str SubCmd :=
  match argv with
  | cmd :: rest =>
    if cmd = ("get").data then
      match rest with
      | [url] =>
        match parse_url url with
        | .ok u => .ok (.get u)
        | .error e => .error e
      | _ => .error usageErr
    else if cmd = ("post").data then
      match rest with
      | url :: pairTokens =>
        match parse_url url with
        | .ok u =>
          match pairTokens.mapM parse_kv_pair with
          | .ok kvs => .ok (.post u kvs)
          | .error e => .error e
        | .error e => .error e
      | [] => .error usageErr
    else .error usageErr
  | [] => .error usageErr

/-- The observable effects of one program run: exit code, whether the HTTP
client was constructed, how many requests were issued, and what was
printed. -/
structure Exec where
  exitCode : Nat
  clientConstructed : Bool
  requestsIssued : Nat
  output : List OutItem
deriving DecidableEq, Repr

/-- `main` (src/main.rs lines 145-161): parse the arguments (failure exits
non-zero before anything else happens — modelled from the spec: `clap`
terminates the process with exit code 2 on a validator failure, before
`main`'s body continues), then construct the client with its default
headers, issue the single request described by the subcommand (`respond`
stands for the network environment), and render: the GET path through
`print_resp` (a content-type panic exits 101 after partial output), the
POST path by debug-printing the response text. -/
def runMain (argv : List Str) (respond : SubCmd → Response) : Exec :=
  match parseOpts argv with
  | .error _ =>
    { exitCode := 2, clientConstructed := false, requestsIssued := 0, output := [] }
  | .ok sub =>
    match sub with
    | .get _ =>
      let resp := respond sub
      match print_resp resp with
      | (out, some _) =>
        { exitCode := 101, clientConstructed := true, requestsIssued := 1, output := out }
      | (out, none) =>
        { exitCode := 0, clientConstructed := true, requestsIssued := 1, output := out }
    | .post _ pairs =>
      let resp := respond sub
      { exitCode := 0, clientConstructed := true, requestsIssued := 1,
        output := (post pairs resp).printed }

/-! ## Lemmas about the body map -/

theorem mapGet_map_ne (m : List (Str × Str)) (k v key : Str) (hne : key ≠ k) :
    mapGet (m.map (fun p => if p.1 = k then (k, v) else p)) key = mapGet m key := by
  induction m with
  | nil => rfl
  | cons p ps ih =>
    by_cases hp : p.1 = k
    · have h1 : k ≠ key := fun h => hne h.symm
      have h2 : p.1 ≠ key := fun h => hne (h.symm.trans hp)
      simp [mapGet, hp, h1, h2, ih]
    · simp [mapGet, hp, ih]

theorem mapGet_hashInsert_mem (m : List (Str × Str)) (k v key : Str)
    (h : m.any (fun p => p.1 = k) = true) :
    mapGet (m.map (fun p => if p.1 = k then (k, v) else p)) key =
      if key = k then some v else mapGet m key := by
  induction m with
  | nil => simp at h
  | cons p ps ih =>
    by_cases hp : p.1 = k
    · by_cases hk : key = k
      · subst hk
        simp [mapGet, hp]
      · have h2 : p.1 ≠ key := fun hh => hk (hh.symm.trans hp)
        have h1 : k ≠ key := fun hh => hk hh.symm
        simp [mapGet, hp, hk, h1, h2, mapGet_map_ne ps k v key hk]
    · have hps : ps.any (fun q => q.1 = k) = true := by
        simp [List.any_cons, hp] at h
        simpa using h
      by_cases hk : key = k
      · subst hk
        simp [mapGet, hp, ih hps]
      · simp [mapGet, hp, hk, ih hps]

theorem mapGet_append_single (m : List (Str × Str)) (k v key : Str)
    (h : m.any (fun p => p.1 = k) = false) :
    mapGet (m ++ [(k, v)]) key = if key = k then some v else mapGet m key := by
  induction m with
  | nil =>
    by_cases hk : key = k
    · subst hk
      simp [mapGet]
    · have h1 : k ≠ key := fun hh => hk hh.symm
      simp [mapGet, hk, h1]
  | cons p ps ih =>
    rw [List.any_cons] at h
    have hp : p.1 ≠ k := by
      intro hh
      simp [hh] at h
    have hps : ps.any (fun q => q.1 = k) = false := by
      rcases Bool.or_eq_false_iff.mp h with ⟨_, h2⟩
      exact h2
    by_cases hk : key = k
    · subst hk
      have hpk : p.1 ≠ key := hp
      simp [mapGet, hpk, ih hps]
    · simp [mapGet, hk, ih hps]

theorem mapGet_hashInsert (m : List (Str × Str)) (k v key : Str) :
    mapGet (hashInsert m k v) key = if key = k then some v else mapGet m key := by
  unfold hashInsert
  by_cases h : m.any (fun p => p.1 = k) = true
  · rw [if_pos h]
    exact mapGet_hashInsert_mem m k v key h
  · rw [if_neg h]
    exact mapGet_append_single m k v key (Bool.eq_false_iff.mpr h)

theorem mapGet_foldl (pairs : List KvPair) (m : List (Str × Str)) (key : Str) :
    mapGet (pairs.foldl (fun acc p => hashInsert acc p.k p.v) m) key =
      match lastVal pairs key with
      | some v => some v
      | none => mapGet m key := by
  induction pairs generalizing m with
  | nil => simp [lastVal]
  | cons p ps ih =>
    rw [List.foldl_cons, ih]
    cases hl : lastVal ps key with
    | some v => simp [lastVal, hl]
    | none =>
      by_cases hk : p.k = key
      · simp [lastVal, hl, mapGet_hashInsert, hk]
      · have hk2 : key ≠ p.k := fun hh => hk hh.symm
        simp [lastVal, hl, mapGet_hashInsert, hk, hk2]

theorem mapGet_buildBody (pairs : List KvPair) (key : Str) :
    mapGet (buildBody pairs) key = lastVal pairs key := by
  unfold buildBody
  rw [mapGet_foldl]
  cases lastVal pairs key <;> simp [mapGet]

/-! ## Claims -/

/-- Claim C1 fails on the code as stated: `KvPair::from_str` takes the first
two fragments of `split('=')`, so for `a=b=c` the parsed value is `b` — the
fragment between the first and the second `=` — and not the entire suffix
`b=c` after the first `=`. -/
theorem claim_C1_cex :
    KvPair.from_str ("a=b=c").data = .ok ⟨("a").data, ("b").data⟩ ∧
    afterSep '=' ("a=b=c").data = ("b=c").data ∧
    ("b").data ≠ ("b=c").data :=
  ⟨rfl, rfl, by decide⟩

/-- Claim C1, amended: for every string containing at least one `=`, parsing
succeeds with key = the substring before the first `=` and value = the
substring after the first `=` truncated at the next `=` (so the full suffix
only when the token contains exactly one `=`); for every string with no `=`,
parsing fails with an error carrying the offending token. -/
theorem claim_C1 (s : Str) :
    ('=' ∈ s → KvPair.from_str s =
      .ok ⟨beforeSep '=' s, beforeSep '=' (afterSep '=' s)⟩) ∧
    ('=' ∉ s → KvPair.from_str s = .error (failMsg s)) :=
  ⟨from_str_of_mem s, from_str_of_not_mem s⟩

/-- Witness for `claim_C1` at the concrete tokens `x=y=z` and `plain`. -/
theorem claim_C1_witness :
    ('=' ∈ ("x=y=z").data ∧
      KvPair.from_str ("x=y=z").data =
        .ok ⟨beforeSep '=' ("x=y=z").data,
             beforeSep '=' (afterSep '=' ("x=y=z").data)⟩) ∧
    ('=' ∉ ("plain").data ∧
      KvPair.from_str ("plain").data = .error (failMsg ("plain").data)) :=
  ⟨⟨by decide, (claim_C1 _).1 (by decide)⟩,
   ⟨by decide, (claim_C1 _).2 (by decide)⟩⟩

/-- Claim C2 fails on the code as stated: a present `Content-Type` value
that fails to parse as a MIME value hits `.parse().unwrap()` and panics,
rather than yielding "no known type" and falling through to plain text. -/
theorem claim_C2_cex :
    get_content_type (some (("xyz").data)) = .error ctPanic ∧
    get_content_type (some (("xyz").data)) ≠ .ok none :=
  ⟨rfl, fun h => Except.noConfusion h⟩

/-- Claim C2, amended: when the `Content-Type` header is absent, detection
yields no known type and the renderer falls through to plain-text rendering;
but when the header is present and its value fails to parse, the program
panics (aborts) instead of falling through. -/
theorem claim_C2 :
    get_content_type none = .ok none ∧
    (∀ body, print_body none body = .plain body) ∧
    (∀ v, mimeParse v = none → get_content_type (some v) = .error ctPanic) := by
  refine ⟨rfl, fun body => rfl, fun v hv => ?_⟩
  simp [get_content_type, hv]

/-- Witness for `claim_C2` at the concrete header value `nonsense`. -/
theorem claim_C2_witness :
    mimeParse ("nonsense").data = none ∧
    get_content_type (some (("nonsense").data)) = .error ctPanic :=
  ⟨rfl, claim_C2.2.2 _ rfl⟩

/-- Claim C3: `parse_url` succeeds on every valid absolute URL (modelled
from the spec: scheme and host required) and returns exactly the original
string unchanged; on every other string it fails. -/
theorem claim_C3 (s : Str) :
    (urlIsValid s = true → parse_url s = .ok s) ∧
    (urlIsValid s = false → parse_url s = .error ((("invalid url: ").data ++ s))) := by
  constructor <;> intro h <;> simp [parse_url, h]

/-- Witness for `claim_C3` at a concrete valid and a concrete invalid URL. -/
theorem claim_C3_witness :
    (urlIsValid ("http://example.com/path").data = true ∧
      parse_url ("http://example.com/path").data = .ok (("http://example.com/path").data)) ∧
    (urlIsValid ("not a url").data = false ∧
      parse_url ("not a url").data =
        .error ((("invalid url: ").data ++ ("not a url").data))) :=
  ⟨⟨by decide, (claim_C3 _).1 (by decide)⟩,
   ⟨by decide, (claim_C3 _).2 (by decide)⟩⟩

/-- Claim C4: the body map built by `post` maps each key to the value of the
last pair carrying it (later pairs overwrite earlier ones); in particular
for the pairs of `post http://x/y a=1 b=2` the map carries both `a ↦ 1` and
`b ↦ 2`. -/
theorem claim_C4 :
    (∀ (pairs : List KvPair) (key : Str),
      mapGet (buildBody pairs) key = lastVal pairs key) ∧
    mapGet (buildBody [⟨("a").data, ("1").data⟩, ⟨("b").data, ("2").data⟩])
      (("a").data) = some (("1").data) ∧
    mapGet (buildBody [⟨("a").data, ("1").data⟩, ⟨("b").data, ("2").data⟩])
      (("b").data) = some (("2").data) :=
  ⟨mapGet_buildBody, by decide, by decide⟩

/-- Claim C5: `print_body` selects the JSON highlighting path exactly when
the detected MIME value is `application/json`, the HTML path exactly when it
is `text/html`, and otherwise prints the raw body unmodified. -/
theorem claim_C5 (m : Option Mime) (body : Str) :
    (print_body m body = .syntect body (("json").data) ↔ m = some APPLICATION_JSON) ∧
    (print_body m body = .syntect body (("html").data) ↔ m = some TEXT_HTML) ∧
    (m ≠ some APPLICATION_JSON → m ≠ some TEXT_HTML → print_body m body = .plain body) := by
  rcases m with _ | v
  · refine ⟨?_, ?_, fun _ _ => rfl⟩ <;>
      simp [print_body]
  · by_cases h1 : v = APPLICATION_JSON
    · subst h1
      have hne : APPLICATION_JSON ≠ TEXT_HTML := by decide
      have hext : (("json").data : Str) ≠ ("html").data := by decide
      refine ⟨?_, ?_, fun hc _ => absurd rfl hc⟩ <;>
        simp [print_body, hne, hext]
    · by_cases h2 : v = TEXT_HTML
      · subst h2
        have hne : TEXT_HTML ≠ APPLICATION_JSON := by decide
        have hext : (("html").data : Str) ≠ ("json").data := by decide
        refine ⟨?_, ?_, fun _ hc => absurd rfl hc⟩ <;>
          simp [print_body, hne, hext]
      · refine ⟨?_, ?_, fun _ _ => ?_⟩ <;>
          simp [print_body, h1, h2]

/-- Witness for `claim_C5` at `application/json` and at no content type. -/
theorem claim_C5_witness :
    print_body (some APPLICATION_JSON) (("x").data) =
      .syntect (("x").data) (("json").data) ∧
    print_body none (("x").data) = .plain (("x").data) :=
  ⟨(claim_C5 _ _).1.mpr rfl,
   (claim_C5 none (("x").data)).2.2 (by decide) (by decide)⟩

/-- Claim C6 fails on the code as stated: `KvPair::from_str` performs no
non-emptiness check, so `=v` parses successfully with an empty key and `k=`
parses successfully with an empty value. -/
theorem claim_C6_cex :
    KvPair.from_str ("=v").data = .ok ⟨[], ("v").data⟩ ∧
    KvPair.from_str ("k=").data = .ok ⟨("k").data, []⟩ :=
  ⟨rfl, rfl⟩

/-- Claim C6, amended: kv-pair parsing succeeds exactly on the tokens
containing at least one `=`, with no non-emptiness requirement on key or
value: `=v` yields an empty key and `k=` an empty value. -/
theorem claim_C6 (s : Str) :
    ((∃ kv, KvPair.from_str s = .ok kv) ↔ '=' ∈ s) ∧
    KvPair.from_str ("=v").data = .ok ⟨[], ("v").data⟩ ∧
    KvPair.from_str ("k=").data = .ok ⟨("k").data, []⟩ := by
  refine ⟨⟨?_, ?_⟩, rfl, rfl⟩
  · rintro ⟨kv, hkv⟩
    by_contra h
    rw [from_str_of_not_mem s h] at hkv
    exact Except.noConfusion hkv
  · intro h
    exact ⟨_, from_str_of_mem s h⟩

/-- Witness for `claim_C6`: success on the concrete token `a=b` certifies
the presence of `=`. -/
theorem claim_C6_witness : '=' ∈ ("a=b").data :=
  (claim_C6 (("a=b").data)).1.mp ⟨⟨("a").data, ("b").data⟩, rfl⟩

/-- Claim C7: the POST path prints only the debug-quoted response text —
no status line, no header line, no body-render item — while the GET path
renders status, headers and body through `print_resp`. -/
theorem claim_C7 (pairs : List KvPair) (resp : Response) :
    (post pairs resp).printed = [OutItem.debugText resp.body] ∧
    (∀ s, OutItem.statusLine s ∉ (post pairs resp).printed) ∧
    (∀ n v, OutItem.headerLine n v ∉ (post pairs resp).printed) ∧
    (∀ r, OutItem.render r ∉ (post pairs resp).printed) ∧
    (∀ m, get_content_type (ctHeaderOf resp) = .ok m →
      (get resp).1 = print_status resp ++ print_headers resp ++
        [.render (print_body m resp.body)]) := by
  refine ⟨rfl, ?_, ?_, ?_, ?_⟩
  · intro s hs
    simp [post] at hs
  · intro n v hs
    simp [post] at hs
  · intro r hs
    simp [post] at hs
  · intro m hm
    simp [get, print_resp, hm]

/-- A concrete response used by the witnesses: `200 OK` with a JSON
content type. -/
def resp0 : Response :=
  { version := ("HTTP/1.1").data
    status := ("200 OK").data
    headers := [((("content-type").data), (("application/json").data))]
    body := ("ok").data }

/-- Witness for `claim_C7` at the concrete response `resp0`. -/
theorem claim_C7_witness :
    (post [] resp0).printed = [OutItem.debugText resp0.body] ∧
    (get resp0).1 = print_status resp0 ++ print_headers resp0 ++
      [.render (print_body (some APPLICATION_JSON) resp0.body)] :=
  ⟨(claim_C7 [] resp0).1,
   (claim_C7 [] resp0).2.2.2.2 (some APPLICATION_JSON) rfl⟩

/-- Claim C8: in `print_syntect`, a missing grammar or a missing theme is a
fatal panic of the invocation (never a plain-text fallback), and with the
bundled defaults — which contain the `json` and `html` grammars and the
`base16-ocean.dark` theme — the aborting branches are unreachable. -/
theorem claim_C8 (exts themes : List Str) (s ext : Str) :
    (exts.contains ext = false → print_syntect exts themes s ext = .error grammarPanic) ∧
    (exts.contains ext = true → themes.contains themeName = false →
      print_syntect exts themes s ext = .error themePanic) ∧
    ((ext = ("json").data ∨ ext = ("html").data) →
      ∃ items, print_syntect defaultSyntaxExts defaultThemes s ext = .ok items) := by
  refine ⟨?_, ?_, ?_⟩
  · intro h
    have hmem : ext ∉ exts := by simpa using h
    simp [print_syntect, hmem]
  · intro h1 h2
    have hmem1 : ext ∈ exts := by simpa using h1
    have hmem2 : themeName ∉ themes := by simpa using h2
    simp [print_syntect, hmem1, hmem2]
  · rintro (h | h) <;> subst h <;> exact ⟨_, rfl⟩

/-- Witness for `claim_C8`: missing grammar panics, missing theme panics,
and the defaults render the `json` grammar without panicking. -/
theorem claim_C8_witness :
    print_syntect [] [] (("a").data) (("json").data) = .error grammarPanic ∧
    print_syntect [("json").data] [] (("a").data) (("json").data) = .error themePanic ∧
    (∃ items, print_syntect defaultSyntaxExts defaultThemes (("a").data) (("json").data) =
      .ok items) :=
  ⟨(claim_C8 [] [] _ _).1 rfl,
   (claim_C8 [("json").data] [] _ _).2.1 rfl rfl,
   (claim_C8 [] [] _ _).2.2 (Or.inl rfl)⟩

/-- Claim C9: an invocation whose URL argument is invalid — for `get` or
`post` alike — fails during argument parsing and exits non-zero with no
client constructed, no request issued, and no output produced. -/
theorem claim_C9 (url : Str) (respond : SubCmd → Response) (pairTokens : List Str)
    (h : urlIsValid url = false) :
    ((runMain [("get").data, url] respond).exitCode ≠ 0 ∧
      (runMain [("get").data, url] respond).clientConstructed = false ∧
      (runMain [("get").data, url] respond).requestsIssued = 0 ∧
      (runMain [("get").data, url] respond).output = []) ∧
    ((runMain (("post").data :: url :: pairTokens) respond).exitCode ≠ 0 ∧
      (runMain (("post").data :: url :: pairTokens) respond).clientConstructed = false ∧
      (runMain (("post").data :: url :: pairTokens) respond).requestsIssued = 0 ∧
      (runMain (("post").data :: url :: pairTokens) respond).output = []) := by
  have hget : runMain [("get").data, url] respond =
      { exitCode := 2, clientConstructed := false, requestsIssued := 0, output := [] } := by
    simp [runMain, parseOpts, parse_url, h]
  have hpost : runMain (("post").data :: url :: pairTokens) respond =
      { exitCode := 2, clientConstructed := false, requestsIssued := 0, output := [] } := by
    simp [runMain, parseOpts, parse_url, h]
  rw [hget, hpost]
  refine ⟨⟨by decide, rfl, rfl, rfl⟩, ⟨by decide, rfl, rfl, rfl⟩⟩

/-- A trivial network environment for the witnesses. -/
def dummyRespond : SubCmd → Response :=
  fun _ => { version := ("HTTP/1.1").data, status := ("200 OK").data,
             headers := [], body := [] }

/-- Witness for `claim_C9` at the concrete malformed URL `ht!tp://bad`. -/
theorem claim_C9_witness :
    urlIsValid ("ht!tp://bad").data = false ∧
    (runMain [("get").data, ("ht!tp://bad").data] dummyRespond).exitCode ≠ 0 ∧
    (runMain [("get").data, ("ht!tp://bad").data] dummyRespond).requestsIssued = 0 ∧
    (runMain [("get").data, ("ht!tp://bad").data] dummyRespond).output = [] :=
  ⟨by decide,
   (claim_C9 _ dummyRespond [] (by decide)).1.1,
   (claim_C9 _ dummyRespond [] (by decide)).1.2.2.1,
   (claim_C9 _ dummyRespond [] (by decide)).1.2.2.2⟩

/-- Claim C10: MIME equality includes parameters, so the detected value for
`application/json; charset=utf-8` parses successfully yet differs from the
bare `application/json`, and `print_body` prints the raw body unmodified
instead of selecting the JSON highlighting path. -/
theorem claim_C10 (body : Str) :
    (∃ m, mimeParse ("application/json; charset=utf-8").data = some m ∧
      m ≠ APPLICATION_JSON) ∧
    print_body (mimeParse ("application/json; charset=utf-8").data) body =
      .plain body := by
  have hp : mimeParse ("application/json; charset=utf-8").data =
      some ⟨("application").data, ("json").data,
            [((("charset").data), (("utf-8").data))]⟩ := rfl
  constructor
  · exact ⟨_, hp, by decide⟩
  · rw [hp]
    have h1 : (⟨("application").data, ("json").data,
        [((("charset").data), (("utf-8").data))]⟩ : Mime) ≠ APPLICATION_JSON := by decide
    have h2 : (⟨("application").data, ("json").data,
        [((("charset").data), (("utf-8").data))]⟩ : Mime) ≠ TEXT_HTML := by decide
    simp [print_body, h1, h2]

end Httpie
